import Mathlib

/-!
Verification of `fastapi_ratelimiter/strategies.py` against its specification.

The Python module is embedded shallowly: pure computations become Lean
functions, the Redis pipeline becomes explicit state passing on the value
stored under the key the code addresses, `time.time()` becomes an explicit
`now` argument, and Python runtime failures (TypeError, AttributeError)
become `Except` errors.
-/

namespace RateLimiterModel

/-- A Python runtime error raised during an evaluation. -/
inductive PyError
  | typeError
  | attributeError
  deriving DecidableEq, Repr

/-- Modelled from the spec: `RateLimitConfig` lives in the (absent)
`fastapi_ratelimiter.config` module; the spec gives it a positive
`maxCount` and a positive `periodInSeconds`, parsed once from a
"count/period" rate string. Only the two numeric fields are used by
`strategies.py`. -/
structure RateLimitConfig where
  max_count : Nat
  period_in_seconds : Nat
  deriving DecidableEq, Repr

/-- `RateLimitStatus` (strategies.py lines 22-38): the decision object. The
count is an `Int` because a Python int is unbounded and the spec allows
derived quantities to go negative. -/
structure RateLimitStatus where
  number_of_requests : Int
  ratelimit_config : RateLimitConfig
  time_left : Int
  deriving DecidableEq, Repr

/-- `RateLimitStatus.limit`: `self.ratelimit_config.max_count`. -/
def RateLimitStatus.limit (s : RateLimitStatus) : Int :=
  s.ratelimit_config.max_count

/-- `RateLimitStatus.remaining_number_of_requests`:
`self.limit - self.number_of_requests`. -/
def RateLimitStatus.remaining_number_of_requests (s : RateLimitStatus) : Int :=
  s.limit - s.number_of_requests

/-- `RateLimitStatus.should_limit`: `self.number_of_requests > self.limit`. -/
def RateLimitStatus.should_limit (s : RateLimitStatus) : Bool :=
  s.number_of_requests > s.limit

/-! ## zlib.crc32 -/

/-- One bit step of the reflected CRC-32: shift right, conditionally xor the
reversed polynomial 0xEDB88320. -/
def crc32Bit (c : Nat) : Nat :=
  if c % 2 = 1 then (c >>> 1) ^^^ 0xEDB88320 else c >>> 1

/-- Fold one input byte into the running CRC (8 bit steps). -/
def crc32Byte (c b : Nat) : Nat :=
  (List.range 8).foldl (fun acc _ => crc32Bit acc) (c ^^^ (b % 256))

/-- `zlib.crc32` over a byte sequence: initial value 0xFFFFFFFF, fold each
byte, final xor with 0xFFFFFFFF. -/
def crc32 (bytes : List Nat) : Nat :=
  (bytes.foldl crc32Byte 0xFFFFFFFF) ^^^ 0xFFFFFFFF

/-- UTF-8 encoding of a string as a byte list (Python `str.encode("utf-8")`). -/
def utf8Bytes (s : String) : List Nat :=
  (s.toList.map (fun c =>
    let n := c.toNat
    if n < 0x80 then [n]
    else if n < 0x800 then [0xC0 + n / 64, 0x80 + n % 64]
    else if n < 0x10000 then
      [0xE0 + n / 4096, 0x80 + (n / 64) % 64, 0x80 + n % 64]
    else
      [0xF0 + n / 262144, 0x80 + (n / 4096) % 64, 0x80 + (n / 64) % 64,
        0x80 + n % 64])).flatten

/-! ## BucketingRateLimitStrategy._get_window

The Python method is declared `async` and reads `int(time.time())` itself;
here the body is embedded as a pure function of the identifier bytes, the
period and that epoch time. (The fact that the caller in
`get_ratelimit_status` forgets to await it is modelled separately, in the
evaluation function below.) -/

/-- `_get_window` body (strategies.py lines 96-114): for period 1 return the
epoch time; otherwise align to the period edge and add the crc32 jitter,
advancing one period when the candidate lies in the past. -/
def getWindow (identBytes : List Nat) (period epoch_time : Nat) : Nat :=
  if period = 1 then epoch_time
  else
    let w := epoch_time - epoch_time % period + crc32 identBytes % period
    if w < epoch_time then w + period else w

/-! ## hashlib.md5 (RFC 1321) -/

/-- Truncation to a 32-bit word. -/
def m32 (n : Nat) : Nat := n % 4294967296

/-- 32-bit left rotation (operand assumed < 2^32). -/
def rotl32 (x s : Nat) : Nat := ((x <<< s) ||| (x >>> (32 - s))) % 4294967296

/-- The 64 MD5 sine-derived constants, floor(2^32 * abs(sin(i+1))). -/
def md5K : List Nat :=
  [3614090360, 3905402710, 606105819, 3250441966, 4118548399, 1200080426,
   2821735955, 4249261313, 1770035416, 2336552879, 4294925233, 2304563134,
   1804603682, 4254626195, 2792965006, 1236535329, 4129170786, 3225465664,
   643717713, 3921069994, 3593408605, 38016083, 3634488961, 3889429448,
   568446438, 3275163606, 4107603335, 1163531501, 2850285829, 4243563512,
   1735328473, 2368359562, 4294588738, 2272392833, 1839030562, 4259657740,
   2763975236, 1272893353, 4139469664, 3200236656, 681279174, 3936430074,
   3572445317, 76029189, 3654602809, 3873151461, 530742520, 3299628645,
   4096336452, 1126891415, 2878612391, 4237533241, 1700485571, 2399980690,
   4293915773, 2240044497, 1873313359, 4264355552, 2734768916, 1309151649,
   4149444226, 3174756917, 718787259, 3951481745]

/-- The per-round MD5 left-rotation amounts. -/
def md5S : List Nat :=
  [7, 12, 17, 22, 7, 12, 17, 22, 7, 12, 17, 22, 7, 12, 17, 22,
   5, 9, 14, 20, 5, 9, 14, 20, 5, 9, 14, 20, 5, 9, 14, 20,
   4, 11, 16, 23, 4, 11, 16, 23, 4, 11, 16, 23, 4, 11, 16, 23,
   6, 10, 15, 21, 6, 10, 15, 21, 6, 10, 15, 21, 6, 10, 15, 21]

/-- Little-endian byte rendering of a number, `count` bytes. -/
def natLEBytes (n count : Nat) : List Nat :=
  (List.range count).map (fun i => (n >>> (8 * i)) % 256)

/-- MD5 padding: a 0x80 byte, zeros up to 56 mod 64, then the bit length as
eight little-endian bytes. -/
def md5Pad (msg : List Nat) : List Nat :=
  let r := (msg.length + 1) % 64
  msg ++ [0x80] ++ List.replicate ((120 - r) % 64) 0 ++ natLEBytes (msg.length * 8) 8

/-- Word `g` (little-endian) of a 64-byte block. -/
def md5Word (block : List Nat) (g : Nat) : Nat :=
  block.getD (4 * g) 0 + block.getD (4 * g + 1) 0 * 256 +
    block.getD (4 * g + 2) 0 * 65536 + block.getD (4 * g + 3) 0 * 16777216

/-- One of the 64 MD5 operations on the (a, b, c, d) state. -/
def md5Op (block : List Nat) (st : Nat × Nat × Nat × Nat) (i : Nat) :
    Nat × Nat × Nat × Nat :=
  let (a, b, c, d) := st
  let fg : Nat × Nat :=
    if i < 16 then ((b &&& c) ||| ((4294967295 ^^^ b) &&& d), i)
    else if i < 32 then ((d &&& b) ||| ((4294967295 ^^^ d) &&& c), (5 * i + 1) % 16)
    else if i < 48 then (b ^^^ c ^^^ d, (3 * i + 5) % 16)
    else (c ^^^ (b ||| (4294967295 ^^^ d)), (7 * i) % 16)
  let t := m32 (fg.1 + a + md5K.getD i 0 + md5Word block fg.2)
  (d, m32 (b + rotl32 t (md5S.getD i 0)), b, c)

/-- Process one 64-byte block. -/
def md5Block (st : Nat × Nat × Nat × Nat) (block : List Nat) :
    Nat × Nat × Nat × Nat :=
  let (a, b, c, d) := (List.range 64).foldl (md5Op block) st
  (m32 (st.1 + a), m32 (st.2.1 + b), m32 (st.2.2.1 + c), m32 (st.2.2.2 + d))

/-- Split a byte list into 64-byte chunks. -/
def chunks64 : List Nat → List (List Nat)
  | [] => []
  | x :: xs => (x :: xs.take 63) :: chunks64 (xs.drop 63)
termination_by l => l.length
decreasing_by
  simp only [List.length_drop, List.length_cons]
  omega

/-- A lowercase hexadecimal digit. -/
def hexDigit (n : Nat) : Char :=
  if n < 10 then Char.ofNat (48 + n) else Char.ofNat (87 + n)

/-- Two lowercase hex digits of a byte. -/
def byteHex (b : Nat) : String :=
  String.mk [hexDigit (b / 16 % 16), hexDigit (b % 16)]

/-- `hashlib.md5(s.encode("utf-8")).hexdigest()`. -/
def md5Hex (s : String) : String :=
  let st := (chunks64 (md5Pad (utf8Bytes s))).foldl md5Block
    (1732584193, 4023233417, 2562383102, 271733878)
  String.join ((natLEBytes st.1 4 ++ natLEBytes st.2.1 4 ++
    natLEBytes st.2.2.1 4 ++ natLEBytes st.2.2.2 4).map byteHex)

/-! ## Python values and the storage-key derivation -/

/-- A `starlette.requests.Request` object; `reqId` stands for its object
identity, the only thing the model needs. -/
structure Request where
  reqId : Nat
  deriving DecidableEq, Repr

/-- The Python values that appear in the strategies: strings, ints, the
request object, and the coroutine object produced by calling an async
method without awaiting it (`addr` is the object identity shown in its
repr). -/
inductive PyValue
  | str (s : String)
  | intVal (n : Int)
  | requestObj (r : Request)
  | coroutine (addr : Nat)
  deriving DecidableEq, Repr

/-- Python `str(x)` on the model values (default reprs for the two object
kinds). -/
def pyStr : PyValue → String
  | .str s => s
  | .intVal n => toString n
  | .requestObj r => "<starlette.requests.Request object at " ++ toString r.reqId ++ ">"
  | .coroutine addr =>
    "<coroutine object BucketingRateLimitStrategy._get_window at " ++ toString addr ++ ">"

/-- Python `"".join(parts)`: concatenates string items and raises TypeError
at the first item that is not a string. -/
def strJoin : List PyValue → Except PyError String
  | [] => .ok ""
  | .str s :: rest => (strJoin rest).map (s ++ ·)
  | _ :: _ => .error .typeError

/-- `safe_rate` (line 93): `"%d/%ds" % (max_count, period_in_seconds)`. -/
def safeRate (cfg : RateLimitConfig) : String :=
  toString cfg.max_count ++ "/" ++ toString cfg.period_in_seconds ++ "s"

/-- `_create_storage_key(*parts)` (lines 92-94): the prefix followed by the
md5 hexdigest of `"".join((safe_rate, *parts))`; the join raises TypeError
when any part is not a string. -/
def createStorageKey (cfg : RateLimitConfig) (pfx : String)
    (parts : List PyValue) : Except PyError String :=
  (strJoin (PyValue.str (safeRate cfg) :: parts)).map (fun s => pfx ++ md5Hex s)

/-! ## Identifier resolution -/

/-- The identifier factory handed to a strategy at construction: either a
plain function or an async (coroutine) function, which is the distinction
`inspect.iscoroutinefunction` draws at the call site. Either kind may
raise while resolving. -/
inductive IdentifierFactory
  | plain (f : Request → Except PyError String)
  | asyncDef (f : Request → Except PyError String)

/-- `_get_request_identifier` (lines 59-66): when the factory is a coroutine
function, the code runs `await self._response_on_limit_exceeded(request)`;
no class in `strategies.py` defines `_response_on_limit_exceeded`, so that
attribute lookup raises AttributeError (and in any case the configured
factory would not be consulted). A plain factory is simply applied. -/
def getRequestIdentifier (fac : IdentifierFactory) (req : Request) :
    Except PyError String :=
  match fac with
  | .asyncDef _ => .error .attributeError
  | .plain f => f req

/-! ## BucketingRateLimitStrategy.get_ratelimit_status -/

/-- The value bound to `window` at line 73: `self._get_window(...)` calls an
async method without `await`, so `window` is a coroutine object, not an
integer; `addr` is the identity of that fresh coroutine object. -/
def bucketingWindowValue (addr : Nat) : PyValue := .coroutine addr

/-- Python subtraction `x - n` where `n` is an int: any non-int left
operand (a coroutine object, say) raises TypeError. -/
def pySub (x : PyValue) (n : Nat) : Except PyError Int :=
  match x with
  | .intVal m => .ok (m - n)
  | _ => .error .typeError

/-- The `INCR` counter table: association list from storage key to value. -/
abbrev Counters := List (String × Nat)

/-- Current value of a counter (0 when the key is absent). -/
def countersGet (st : Counters) (k : String) : Nat :=
  ((st.find? (fun p => p.1 == k)).map Prod.snd).getD 0

/-- Write a counter value. -/
def countersSet (st : Counters) (k : String) (v : Nat) : Counters :=
  match st with
  | [] => [(k, v)]
  | (k0, v0) :: rest =>
    if k0 = k then (k, v) :: rest else (k0, v0) :: countersSet rest k v

/-- `BucketingRateLimitStrategy.get_ratelimit_status` (lines 71-90), one
evaluation: resolve the identifier, bind `window` to the unawaited
coroutine, build the storage key from the parts
`(request, request_identifier, str(window))`, run the `INCR`+`EXPIRE`
pipeline, and assemble the status with `time_left = window - now` where
`now` stands for `int(time.time())`. The `EXPIRE` step only touches the
TTL and is not modelled; no claim depends on it. -/
def bucketingEval (cfg : RateLimitConfig) (pfx : String)
    (fac : IdentifierFactory) (req : Request) (addr : Nat) (store : Counters)
    (now : Nat) : Except PyError (RateLimitStatus × Counters) := do
  let ident ← getRequestIdentifier fac req
  let window := bucketingWindowValue addr
  let key ← createStorageKey cfg pfx
    [PyValue.requestObj req, PyValue.str ident, PyValue.str (pyStr window)]
  let count := countersGet store key + 1
  let store2 := countersSet store key count
  let tl ← pySub window now
  pure ({ number_of_requests := count, ratelimit_config := cfg, time_left := tl },
    store2)

/-! ## SlidingWindowLimitStrategy.get_ratelimit_status -/

/-- A Redis ordered set: (member, score) pairs kept ordered by
(score, member). -/
abbrev ZSet := List (String × Nat)

/-- `ZREMRANGEBYSCORE key 0 cutoff`: drop members whose score lies in the
inclusive range [0, cutoff]; the cutoff is an arbitrary Python int and may
be negative, in which case nothing is removed. -/
def zremrangebyscore (z : ZSet) (cutoff : Int) : ZSet :=
  z.filter (fun e => !(decide (0 ≤ (e.2 : Int) ∧ (e.2 : Int) ≤ cutoff)))

/-- Ordered insertion by (score, member). -/
def zinsert : ZSet → String → Nat → ZSet
  | [], m, s => [(m, s)]
  | (m0, s0) :: rest, m, s =>
    if s0 < s ∨ (s0 = s ∧ m0 < m) then (m0, s0) :: zinsert rest m s
    else (m, s) :: (m0, s0) :: rest

/-- `ZADD key {member: score}`: update the score when the member exists,
otherwise insert keeping (score, member) order. -/
def zadd (z : ZSet) (member : String) (score : Nat) : ZSet :=
  zinsert (z.filter (fun e => e.1 != member)) member score

/-- `ZRANGE key 0 -1`: every member, in order. -/
def zrangeAll (z : ZSet) : List String := z.map Prod.fst

/-- `i.split(":")[-1]`: the last colon-separated segment of a string
(Python `str.split` with a separator always returns at least one segment,
and the last one is the run of characters after the final colon). -/
def lastSegment (m : String) : List Char :=
  m.toList.foldl (fun acc c => if c = ':' then [] else acc ++ [c]) []

/-- Python `int(...)` on a decimal-digit string. -/
def decDigits (cs : List Char) : Option Nat :=
  if cs ≠ [] ∧ cs.all (fun c => c.isDigit) then
    some (cs.foldl (fun acc c => acc * 10 + (c.toNat - 48)) 0)
  else none

/-- `int(i.split(":")[-1])`: the numeric suffix after the last colon of a
ledger member. Every member the strategy writes has the shape
`f"{epochMs}:1"`, so the digits always parse; a malformed member, on which
Python `int` would raise, is mapped to 0 and never arises. -/
def weightOf (m : String) : Nat := (decDigits (lastSegment m)).getD 0

/-- The sliding-window storage key (line 120):
`f"{self._prefix}:{request_identifier}"`. -/
def slidingStorageKey (pfx ident : String) : String := pfx ++ ":" ++ ident

/-- `SlidingWindowLimitStrategy.get_ratelimit_status` (lines 118-147) after
a successful identifier resolution, acting on the ordered set stored under
`slidingStorageKey`; `epochMs` stands for `int(time.time() * 1000)`. The
pipeline, in order: remove scores in [0, epochMs - period_in_seconds*100],
add the ledger entry `f"{epochMs}:1"` at score epochMs, read all members
back, and sum each member suffix after its last colon; `time_left` is the
-1 sentinel. The `EXPIRE` step only touches the TTL and is not modelled. -/
def slidingEval (cfg : RateLimitConfig) (z : ZSet) (epochMs : Nat) :
    RateLimitStatus × ZSet :=
  let z1 := zremrangebyscore z ((epochMs : Int) - cfg.period_in_seconds * 100)
  let z2 := zadd z1 (toString epochMs ++ ":1") epochMs
  let count : Int := ((zrangeAll z2).map weightOf).sum
  ({ number_of_requests := count, ratelimit_config := cfg, time_left := -1 }, z2)

/-- Sequential sliding-window evaluations at the given epoch-millisecond
times, threading the ordered set; the statuses are returned in order
together with the final set. -/
def slidingEvalSeq (cfg : RateLimitConfig) (z : ZSet) :
    List Nat → List RateLimitStatus × ZSet
  | [] => ([], z)
  | t :: ts =>
    let r := slidingEval cfg z t
    let rest := slidingEvalSeq cfg r.2 ts
    (r.1 :: rest.1, rest.2)

/-! ## Helper lemmas about the window function -/

theorem getWindow_eq_of_ne_one (identBytes : List Nat) (p now : Nat)
    (hp : p ≠ 1) :
    getWindow identBytes p now =
      if now - now % p + crc32 identBytes % p < now
      then now - now % p + crc32 identBytes % p + p
      else now - now % p + crc32 identBytes % p := by
  simp [getWindow, hp]

theorem getWindow_bounds (identBytes : List Nat) (p now : Nat) (hp : 0 < p) :
    now ≤ getWindow identBytes p now ∧ getWindow identBytes p now < now + p := by
  by_cases h1 : p = 1
  · subst h1; simp [getWindow]
  · have hj : crc32 identBytes % p < p := Nat.mod_lt _ hp
    have hm : now % p < p := Nat.mod_lt _ hp
    have hle : now % p ≤ now := Nat.mod_le _ _
    rw [getWindow_eq_of_ne_one identBytes p now h1]
    by_cases hc : now - now % p + crc32 identBytes % p < now
    · rw [if_pos hc]; omega
    · rw [if_neg hc]; omega

theorem getWindow_mod (identBytes : List Nat) (p now : Nat) (hp : 0 < p) :
    getWindow identBytes p now % p = crc32 identBytes % p := by
  by_cases h1 : p = 1
  · subst h1; simp [getWindow, Nat.mod_one]
  · rw [getWindow_eq_of_ne_one identBytes p now h1]
    have h2 : now - now % p = p * (now / p) := by
      have h3 := Nat.div_add_mod now p
      omega
    have base : (p * (now / p) + crc32 identBytes % p) % p
        = crc32 identBytes % p := by
      rw [Nat.mul_add_mod, Nat.mod_mod_of_dvd _ dvd_rfl]
    rw [h2]
    by_cases hc : p * (now / p) + crc32 identBytes % p < now
    · rw [if_pos hc, Nat.add_mod_right]
      exact base
    · rw [if_neg hc]
      exact base

theorem mod_eq_unique (p n m1 m2 : Nat) (h : m1 % p = m2 % p)
    (ha1 : n ≤ m1) (hb1 : m1 < n + p) (ha2 : n ≤ m2) (hb2 : m2 < n + p) :
    m1 = m2 := by
  rcases Nat.le_total m1 m2 with hle | hle
  · have hd : p ∣ m2 - m1 := (Nat.modEq_iff_dvd' hle).mp h
    have h0 : m2 - m1 = 0 := Nat.eq_zero_of_dvd_of_lt hd (by omega)
    omega
  · have hd : p ∣ m1 - m2 := (Nat.modEq_iff_dvd' hle).mp h.symm
    have h0 : m1 - m2 = 0 := Nat.eq_zero_of_dvd_of_lt hd (by omega)
    omega

/-! ## Claim theorems -/

/-- **C1** (code bug). The claim says the sliding-window prune removes
exactly the entries with score at most nowMs - periodSeconds*100*1000, so
an entry only 5 seconds old (period 10 s, horizon 1000 s) must survive.
The code computes the cutoff as `epoch_ms - (period_in_seconds * 100)`,
mixing a millisecond clock with a second-scale horizon, so the 5-second-old
entry (score 995000 at nowMs 1000000) is removed: the post-evaluation set
holds only the fresh entry, although 995000 is well above the cutoff the
claim states. -/
theorem sliding_prune_removes_young_entry :
    (slidingEval ⟨5, 10⟩ [("995000:1", 995000)] 1000000).2 =
      [("1000000:1", 1000000)] ∧
    (1000000 : Int) - 10 * 100 * 1000 < 995000 := by
  constructor <;> decide

/-- **C2** (code bug). The claim says the bucketing storage key is a
function of (configuration, identifier, window) alone. The call site at
line 74 also passes the `Request` object itself as a key part, and
`"".join` over parts containing a non-string raises TypeError, so key
derivation fails on every request instead of producing a key determined by
those three values. -/
theorem storage_key_includes_request_and_fails :
    createStorageKey ⟨5, 60⟩ "rl:"
      [PyValue.requestObj ⟨1⟩, PyValue.str "1.2.3.4",
        PyValue.str (pyStr (bucketingWindowValue 2))] =
      Except.error PyError.typeError := rfl

/-- **C3** (code bug). The claim says N fresh-key evaluations return counts
1..N. A bucketing evaluation with a plain identifier factory on a fresh
store raises TypeError while building the storage key (the Request object
sits among the joined parts), so no decision, hence no count, is ever
returned. -/
theorem bucketing_eval_returns_no_decision :
    bucketingEval ⟨5, 60⟩ "rl:"
      (IdentifierFactory.plain (fun _ => Except.ok "1.2.3.4")) ⟨1⟩ 2 [] 1000 =
      Except.error PyError.typeError := rfl

/-- **C4** (code bug). The claim says the identifier is exactly the value
the configured factory produces, awaited when the factory is asynchronous.
For an async factory that would resolve to "1.2.3.4", the code instead
calls the nonexistent `self._response_on_limit_exceeded(request)` and
raises AttributeError, so the factory value is never used. -/
theorem async_resolution_not_factory_value :
    getRequestIdentifier
        (IdentifierFactory.asyncDef (fun _ => Except.ok "1.2.3.4")) ⟨1⟩ =
      Except.error PyError.attributeError ∧
    (fun (_ : Request) => (Except.ok "1.2.3.4" : Except PyError String)) ⟨1⟩ =
      Except.ok "1.2.3.4" :=
  ⟨rfl, rfl⟩

/-- **C5** (confirmed). The body of `_get_window` returns the epoch time
when the period is 1, and otherwise the candidate
(now - now % period) + (crc32 identBytes % period), advanced by one full
period exactly when the candidate is strictly below now. -/
theorem getWindow_matches_formula (identBytes : List Nat) (p now : Nat) :
    (p = 1 → getWindow identBytes p now = now) ∧
    (p ≠ 1 → getWindow identBytes p now =
      if now - now % p + crc32 identBytes % p < now
      then now - now % p + crc32 identBytes % p + p
      else now - now % p + crc32 identBytes % p) := by
  constructor
  · intro h; subst h; simp [getWindow]
  · intro h; exact getWindow_eq_of_ne_one identBytes p now h

/-- Witness for C5 at period 1 and at period 10 with identifier byte 97
(crc32 [97] mod 10 = 7). -/
theorem getWindow_matches_formula_witness :
    getWindow [97] 1 1000 = 1000 ∧ getWindow [97] 10 5 = 7 := by
  constructor
  · exact (getWindow_matches_formula [97] 1 1000).1 rfl
  · have h := (getWindow_matches_formula [97] 10 5).2 (by decide)
    rw [h]; decide

/-- **C6** counterexample. The claim says any two times inside the same
period yield the same window end. For identifier byte 97 (jitter
crc32 [97] mod 10 = 7) the times 5 and 8 lie in the same 10-second period
yet produce window ends 7 and 17. -/
theorem getWindow_same_period_not_stable :
    5 / 10 = 8 / 10 ∧ getWindow [97] 10 5 ≠ getWindow [97] 10 8 := by decide

/-- **C6** amended. The window end never precedes the supplied time, and
repeated calls agree as long as the later time has not passed the window
end returned for the earlier time (rather than merely lying in the same
aligned period). -/
theorem getWindow_lb_and_window_stable (identBytes : List Nat)
    (p now n1 n2 : Nat) (hp : 0 < p) :
    now ≤ getWindow identBytes p now ∧
    (n1 ≤ n2 → n2 ≤ getWindow identBytes p n1 →
      getWindow identBytes p n2 = getWindow identBytes p n1) := by
  refine ⟨(getWindow_bounds identBytes p now hp).1, fun h12 h2w => ?_⟩
  have hb1 := getWindow_bounds identBytes p n1 hp
  have hb2 := getWindow_bounds identBytes p n2 hp
  have hm1 := getWindow_mod identBytes p n1 hp
  have hm2 := getWindow_mod identBytes p n2 hp
  exact mod_eq_unique p n2 _ _ (hm2.trans hm1.symm) hb2.1 hb2.2 h2w (by omega)

/-- Witness for the amended C6: identifier byte 97, period 10, times 5 and
6, both below the window end 7 computed at time 5. -/
theorem getWindow_lb_and_window_stable_witness :
    5 ≤ getWindow [97] 10 5 ∧ getWindow [97] 10 6 = getWindow [97] 10 5 := by
  have h := getWindow_lb_and_window_stable [97] 10 5 5 6 (by decide)
  exact ⟨h.1, h.2 (by decide) (by decide)⟩

/-- **C7** (code bug). The claim says every bucketing decision carries
time_left = windowEnd - now. The value bound to `window` is the coroutine
object of the unawaited `self._get_window(...)` call, so the subtraction
`window - int(time.time())` at line 89 raises TypeError and no time_left
is ever computed (independently of the storage-key failure that aborts the
evaluation even earlier). -/
theorem window_minus_now_raises :
    pySub (bucketingWindowValue 7) 1000 = Except.error PyError.typeError := rfl

/-- **C8** (code bug). The claim says five events inserted 1 second apart
(period 10 s, all within the stated retention horizon) yield count 5 on the
fifth evaluation. Because the prune cutoff is `epoch_ms - period*100`
(milliseconds against a second-scale horizon), every evaluation first
deletes all entries older than one second, so the five evaluations return
count 1 each; the time_left sentinel -1 part of the claim does hold. -/
theorem sliding_five_events_undercount :
    ((slidingEvalSeq ⟨5, 10⟩ []
        [1000000, 1001000, 1002000, 1003000, 1004000]).1.map
      (fun s => s.number_of_requests)) = [1, 1, 1, 1, 1] ∧
    ((slidingEvalSeq ⟨5, 10⟩ []
        [1000000, 1001000, 1002000, 1003000, 1004000]).1.map
      (fun s => s.time_left)) = [-1, -1, -1, -1, -1] := by
  constructor <;> decide

/-- **C9** (confirmed). For every decision object, the remaining count is
exactly max_count - count (an integer that may be negative) and
should_limit holds exactly when count strictly exceeds max_count; in
particular count = max_count does not limit. -/
theorem status_derived_fields (s : RateLimitStatus) :
    s.remaining_number_of_requests =
      (s.ratelimit_config.max_count : Int) - s.number_of_requests ∧
    (s.should_limit = true ↔
      (s.ratelimit_config.max_count : Int) < s.number_of_requests) ∧
    (s.number_of_requests = (s.ratelimit_config.max_count : Int) →
      s.should_limit = false) := by
  refine ⟨rfl, ?_, ?_⟩
  · simp [RateLimitStatus.should_limit, RateLimitStatus.limit]
  · intro h
    simp [RateLimitStatus.should_limit, RateLimitStatus.limit, h]

/-- Witness for C9 at count 3 = max_count 3: not limited. -/
theorem status_derived_fields_witness :
    (RateLimitStatus.mk 3 ⟨3, 60⟩ 10).should_limit = false :=
  (status_derived_fields ⟨3, ⟨3, 60⟩, 10⟩).2.2 (by decide)

/-- **C10** (confirmed). For periods of at least 2 seconds the computed
window end lies in the half-open interval [now, now + period). -/
theorem getWindow_within_one_period (identBytes : List Nat) (p now : Nat)
    (hp : 2 ≤ p) :
    now ≤ getWindow identBytes p now ∧ getWindow identBytes p now < now + p :=
  getWindow_bounds identBytes p now (by omega)

/-- Witness for C10: identifier byte 97, period 10, time 5. -/
theorem getWindow_within_one_period_witness :
    5 ≤ getWindow [97] 10 5 ∧ getWindow [97] 10 5 < 5 + 10 :=
  getWindow_within_one_period [97] 10 5 (by decide)

end RateLimiterModel
